import Mathlib

/-!
Verification of the solders-macros attribute-macro crate (src/lib.rs).

The crate defines seven procedural attribute macros.  Six of them
(pyhash, richcmp_full, richcmp_eq_only, richcmp_signer, common_methods,
rpc_id_getter) parse the annotated item as an impl block, push one or
more verbatim generated methods onto its item list, and re-emit the
block as tokens.  The seventh (enum_original_mapping) takes an enum
definition plus the name of a paired original enum and emits the
original tokens followed by two From impls that convert by variant
name, the forward direction carrying a catch-all branch that fails at
runtime with a message naming the unrecognized variant.

The embedding models token streams as lists of token strings, the
parsed impl block as its attribute tokens, header tokens and item
list, each generated method as a record holding its signature tokens
and a small body AST (delegate call or field access), and gives the
body AST an evaluation semantics against an environment of delegate
methods so that the delegation claims can be stated.
-/

namespace Solders

/-- A single Rust token, shallowly embedded as a string. -/
abbrev Token := String

/-- A Rust token stream: an ordered list of tokens. -/
abbrev TokenStream := List Token

/-- First-match association-list lookup, the semantics of matching a
method or argument name in order. -/
def lookupVal {α : Type} : String → List (String × α) → Option α
  | _, [] => none
  | k, (k2, v) :: rest => if k = k2 then some v else lookupVal k rest

/-- The six ordering operators of pyo3 CompareOp. -/
inductive CompareOp where
  | lt | le | eq | ne | gt | ge
deriving DecidableEq

/-- Runtime values flowing through the generated method bodies. -/
inductive Val where
  | u64 (n : Nat)
  | bool (b : Bool)
  | str (s : String)
  | op (o : CompareOp)
  | pair (a b : Val)
deriving DecidableEq

/-- Body of a generated method: the macros only ever generate a call
of a method on self, a call of an associated function of Self, or a
nested field access on self. -/
inductive Body where
  | delegateSelf (m : String) (args : List String)
  | delegateStatic (m : String) (args : List String)
  | fieldAccess (path : List String)
deriving DecidableEq

/-- Comma-separated token rendering of an argument name list. -/
def commaSep : List String → TokenStream
  | [] => []
  | [x] => [x]
  | x :: y :: rest => x :: "," :: commaSep (y :: rest)

/-- Token rendering of a generated method body. -/
def Body.toTokens : Body → TokenStream
  | .delegateSelf m args => ["self", ".", m, "("] ++ commaSep args ++ [")"]
  | .delegateStatic m args => ["Self", "::", m, "("] ++ commaSep args ++ [")"]
  | .fieldAccess path => "self" :: (path.map (fun f => [".", f])).flatten

/-- A generated method: attribute/doc tokens, name, generics, formal
parameter tokens, return type tokens and body. -/
structure GenMethod where
  attrTokens : TokenStream
  name : String
  genericTokens : TokenStream
  paramTokens : TokenStream
  retTokens : TokenStream
  body : Body
deriving DecidableEq

/-- Token rendering of a generated method, mirroring the quote output. -/
def GenMethod.tokens (m : GenMethod) : TokenStream :=
  m.attrTokens ++ ["pub", "fn", m.name] ++ m.genericTokens ++ ["("] ++ m.paramTokens
    ++ [")", "->"] ++ m.retTokens ++ ["\x7b"] ++ m.body.toTokens ++ ["\x7d"]

/-- An item of an impl block: either a pre-existing item carrying its
original tokens, or a verbatim generated method pushed by a macro. -/
inductive ImplItem where
  | parsed (tokens : TokenStream)
  | verbatim (m : GenMethod)
deriving DecidableEq

/-- Token rendering of an impl item. -/
def ImplItem.toTokens : ImplItem → TokenStream
  | .parsed ts => ts
  | .verbatim m => m.tokens

/-- A parsed impl block (syn ItemImpl): attribute tokens, header
tokens (impl keyword, generics, self type) and the ordered item list. -/
structure ItemImpl where
  attrs : TokenStream
  header : TokenStream
  items : List ImplItem
deriving DecidableEq

/-- Re-serialization of an impl block to tokens (syn to_token_stream). -/
def ItemImpl.toTokenStream (i : ItemImpl) : TokenStream :=
  i.attrs ++ i.header ++ ["\x7b"] ++ (i.items.map ImplItem.toTokens).flatten ++ ["\x7d"]

/-- The method generated by the pyhash macro. -/
def pyhashMethod : GenMethod :=
  { attrTokens := []
    name := "__hash__"
    genericTokens := []
    paramTokens := ["&", "self"]
    retTokens := ["u64"]
    body := .delegateSelf "pyhash" [] }

/-- The method generated by the richcmp_full macro. -/
def richcmpFullMethod : GenMethod :=
  { attrTokens := []
    name := "__richcmp__"
    genericTokens := []
    paramTokens := ["&", "self", ",", "other", ":", "&", "Self", ",",
                    "op", ":", "pyo3", "::", "basic", "::", "CompareOp"]
    retTokens := ["bool"]
    body := .delegateSelf "richcmp" ["other", "op"] }

/-- The method generated by the richcmp_eq_only macro. -/
def richcmpEqOnlyMethod : GenMethod :=
  { attrTokens := []
    name := "__richcmp__"
    genericTokens := []
    paramTokens := ["&", "self", ",", "other", ":", "&", "Self", ",",
                    "op", ":", "pyo3", "::", "basic", "::", "CompareOp"]
    retTokens := ["pyo3", "::", "prelude", "::", "PyResult", "<", "bool", ">"]
    body := .delegateSelf "richcmp" ["other", "op"] }

/-- The method generated by the richcmp_signer macro. -/
def richcmpSignerMethod : GenMethod :=
  { attrTokens := []
    name := "__richcmp__"
    genericTokens := []
    paramTokens := ["&", "self", ",", "other", ":", "crate", "::", "Signer", ",",
                    "op", ":", "pyo3", "::", "basic", "::", "CompareOp"]
    retTokens := ["pyo3", "::", "prelude", "::", "PyResult", "<", "bool", ">"]
    body := .delegateSelf "richcmp" ["other", "op"] }

/-- The first method generated by the common_methods macro. -/
def bytesMethod : GenMethod :=
  { attrTokens := []
    name := "__bytes__"
    genericTokens := ["<", "\x27a", ">"]
    paramTokens := ["&", "self", ",", "py", ":",
                    "pyo3", "::", "prelude", "::", "Python", "<", "\x27a", ">"]
    retTokens := ["&", "\x27a", "pyo3", "::", "types", "::", "PyBytes"]
    body := .delegateSelf "pybytes" ["py"] }

/-- The second method generated by the common_methods macro. -/
def strMethod : GenMethod :=
  { attrTokens := []
    name := "__str__"
    genericTokens := []
    paramTokens := ["&", "self"]
    retTokens := ["String"]
    body := .delegateSelf "pystr" [] }

/-- The third method generated by the common_methods macro. -/
def reprMethod : GenMethod :=
  { attrTokens := []
    name := "__repr__"
    genericTokens := []
    paramTokens := ["&", "self"]
    retTokens := ["String"]
    body := .delegateSelf "pyrepr" [] }

/-- The fourth method generated by the common_methods macro. -/
def reduceMethod : GenMethod :=
  { attrTokens := []
    name := "__reduce__"
    genericTokens := []
    paramTokens := ["&", "self"]
    retTokens := ["pyo3", "::", "prelude", "::", "PyResult", "<", "(",
                  "pyo3", "::", "prelude", "::", "PyObject", ",",
                  "pyo3", "::", "prelude", "::", "PyObject", ")", ">"]
    body := .delegateSelf "pyreduce" [] }

/-- The fifth method generated by the common_methods macro. -/
def toJsonMethod : GenMethod :=
  { attrTokens := ["/// Convert to a JSON string."]
    name := "to_json"
    genericTokens := []
    paramTokens := ["&", "self"]
    retTokens := ["String"]
    body := .delegateSelf "py_to_json" [] }

/-- The sixth method generated by the common_methods macro. -/
def fromJsonMethod : GenMethod :=
  { attrTokens := ["/// Build from a JSON string.", "#[staticmethod]"]
    name := "from_json"
    genericTokens := []
    paramTokens := ["raw", ":", "&", "str"]
    retTokens := ["PyResult", "<", "Self", ">"]
    body := .delegateStatic "py_from_json" ["raw"] }

/-- The getter generated by the rpc_id_getter macro. -/
def idMethod : GenMethod :=
  { attrTokens := ["/// int: The ID of the RPC request.", "#[getter]"]
    name := "id"
    genericTokens := []
    paramTokens := ["&", "self"]
    retTokens := ["u64"]
    body := .fieldAccess ["base", "id"] }

/-- The pyhash attribute macro: parse the impl block, push the
generated hash accessor, re-emit.  The attribute argument stream is
bound but unread, as in the source. -/
def pyhash (_args : TokenStream) (ast : ItemImpl) : ItemImpl :=
  { ast with items := ast.items ++ [ImplItem.verbatim pyhashMethod] }

/-- The richcmp_full attribute macro. -/
def richcmp_full (_args : TokenStream) (ast : ItemImpl) : ItemImpl :=
  { ast with items := ast.items ++ [ImplItem.verbatim richcmpFullMethod] }

/-- The richcmp_eq_only attribute macro. -/
def richcmp_eq_only (_args : TokenStream) (ast : ItemImpl) : ItemImpl :=
  { ast with items := ast.items ++ [ImplItem.verbatim richcmpEqOnlyMethod] }

/-- The richcmp_signer attribute macro. -/
def richcmp_signer (_args : TokenStream) (ast : ItemImpl) : ItemImpl :=
  { ast with items := ast.items ++ [ImplItem.verbatim richcmpSignerMethod] }

/-- The slice of six methods appended by the common_methods macro. -/
def commonMethodItems : List ImplItem :=
  [ImplItem.verbatim bytesMethod, ImplItem.verbatim strMethod,
   ImplItem.verbatim reprMethod, ImplItem.verbatim reduceMethod,
   ImplItem.verbatim toJsonMethod, ImplItem.verbatim fromJsonMethod]

/-- The common_methods attribute macro. -/
def common_methods (_args : TokenStream) (ast : ItemImpl) : ItemImpl :=
  { ast with items := ast.items ++ commonMethodItems }

/-- The rpc_id_getter attribute macro. -/
def rpc_id_getter (_args : TokenStream) (ast : ItemImpl) : ItemImpl :=
  { ast with items := ast.items ++ [ImplItem.verbatim idMethod] }

/-- Evaluation environment for a generated method body: the receiver
value, the values of the formal parameters, the methods and associated
functions of the annotated type, and the fields reachable from self. -/
structure Env where
  selfVal : Val
  args : List (String × Val)
  methods : List (String × (Val → List Val → Except String Val))
  statics : List (String × (List Val → Except String Val))
  fields : List String → Option Val

/-- Resolve a list of argument names to their values in order. -/
def resolveArgs (env : Env) : List String → Option (List Val)
  | [] => some []
  | a :: rest =>
    match lookupVal a env.args with
    | some v =>
      match resolveArgs env rest with
      | some vs => some (v :: vs)
      | none => none
    | none => none

/-- Evaluation of a generated method body against an environment.
Calling a method that exists returns exactly what the delegate
returns; a missing method or argument is the downstream compile error
the crate never checks for. -/
def Body.eval (env : Env) : Body → Except String Val
  | .delegateSelf m argNames =>
    match lookupVal m env.methods with
    | some f =>
      match resolveArgs env argNames with
      | some vs => f env.selfVal vs
      | none => Except.error "unbound argument"
    | none => Except.error ("no method " ++ m)
  | .delegateStatic m argNames =>
    match lookupVal m env.statics with
    | some f =>
      match resolveArgs env argNames with
      | some vs => f vs
      | none => Except.error "unbound argument"
    | none => Except.error ("no associated function " ++ m)
  | .fieldAccess path =>
    match env.fields path with
    | some v => Except.ok v
    | none => Except.error "no such field"

/-- A parsed enum definition (syn ItemEnum): its name, its full
original token stream, and its variant names in declaration order. -/
structure ItemEnum where
  ident : String
  tokens : TokenStream
  variants : List String
deriving DecidableEq

/-- A generated match-based conversion: ordered arms mapping a matched
variant name to the produced variant name, and whether a final
catch-all arm failing with "Unrecognized variant" is present. -/
structure MatchConv where
  arms : List (String × String)
  catchAll : Bool
deriving DecidableEq

/-- Run a generated conversion on a value of the source enum,
identified by its variant name.  Arms are tried first to last; the
catch-all, when present, is last and fails naming the variant, as the
generated panic does.  A match with no applicable arm and no catch-all
cannot be reached from a value of an enum the match is exhaustive
over. -/
def MatchConv.run (m : MatchConv) (v : String) : Except String String :=
  match lookupVal v m.arms with
  | some r => Except.ok r
  | none =>
    if m.catchAll then Except.error ("Unrecognized variant: " ++ v)
    else Except.error "non-exhaustive match"

/-- Token arms joined by commas, mirroring the quote repetition. -/
def sepByComma : List TokenStream → TokenStream
  | [] => []
  | [xs] => xs
  | xs :: ys :: rest => xs ++ ["," ] ++ sepByComma (ys :: rest)

/-- Tokens of the two generated From impls appended by the
enum_original_mapping macro. -/
def fromImplTokens (orig derived : String) (names : List String) : TokenStream :=
  ["impl", "From", "<", orig, ">", "for", derived, "\x7b",
   "fn", "from", "(", "left", ":", orig, ")", "->", "Self", "\x7b",
   "match", "left", "\x7b"]
  ++ sepByComma (names.map (fun n => [orig, "::", n, "=>", "Self", "::", n]))
  ++ [",", "_", "=>", "panic!", "(", "\"Unrecognized variant: \x7b:?\x7d\"", ",",
      "left", ")", "\x7d", "\x7d", "\x7d",
      "impl", "From", "<", derived, ">", "for", orig, "\x7b",
      "fn", "from", "(", "left", ":", derived, ")", "->", "Self", "\x7b",
      "match", "left", "\x7b"]
  ++ sepByComma (names.map (fun n => [derived, "::", n, "=>", "Self", "::", n]))
  ++ ["\x7d", "\x7d", "\x7d"]

/-- Output of the enum_original_mapping macro: the emitted token
stream (the cloned original item tokens with the From impls appended)
together with the two conversions it defines, forward from the
original enum into the annotated enum and reverse back. -/
structure EnumMappingOut where
  stream : TokenStream
  fwd : MatchConv
  rev : MatchConv

/-- The enum_original_mapping attribute macro: reads the annotated
enum and the original enum name, and emits the original tokens plus
two From impls matching every annotated variant name to the
identically named variant, the forward impl ending in a catch-all
panic arm and the reverse impl having no catch-all. -/
def enum_original_mapping (original : String) (item : ItemEnum) : EnumMappingOut :=
  { stream := item.tokens ++ fromImplTokens original item.ident item.variants
    fwd := { arms := item.variants.map (fun n => (n, n)), catchAll := true }
    rev := { arms := item.variants.map (fun n => (n, n)), catchAll := false } }

/-- The diagonal arm list maps a name present in the variant list to
itself. -/
theorem lookupVal_diag_of_mem {v : String} {names : List String} (h : v ∈ names) :
    lookupVal v (names.map (fun n => (n, n))) = some v := by
  induction names with
  | nil => exact absurd h (List.not_mem_nil v)
  | cons a t ih =>
    simp only [List.map_cons, lookupVal]
    by_cases hva : v = a
    · simp [hva]
    · rw [if_neg hva]
      exact ih ((List.mem_cons.mp h).resolve_left hva)

/-- The diagonal arm list does not match a name absent from the
variant list. -/
theorem lookupVal_diag_of_not_mem {v : String} {names : List String}
    (h : v ∉ names) :
    lookupVal v (names.map (fun n => (n, n))) = none := by
  induction names with
  | nil => rfl
  | cons a t ih =>
    simp only [List.map_cons, lookupVal]
    rw [if_neg (fun hva => h (by rw [hva]; exact List.mem_cons_self a t))]
    exact ih (fun hm => h (List.mem_cons_of_mem a hm))

/-- A concrete annotated enum used as the witness input, paired with
an external enum named Original. -/
def demoDerived : ItemEnum :=
  { ident := "Derived"
    tokens := ["pub", "enum", "Derived", "\x7b", "A", ",", "B", "\x7d"]
    variants := ["A", "B"] }

/-- C1: for every enum pair generated by the enum_original_mapping
rule and every variant name present both in the annotated enum and in
the paired external enum, converting the external value to the
annotated enum and then back to the external enum yields a value equal
to the original. -/
theorem c1_enum_mapping_roundtrip (orig : String) (item : ItemEnum)
    (extVariants : List String) (v : String)
    (_hext : v ∈ extVariants) (hann : v ∈ item.variants) :
    ((enum_original_mapping orig item).fwd.run v).bind
      (enum_original_mapping orig item).rev.run = Except.ok v := by
  have hf := lookupVal_diag_of_mem hann
  simp [enum_original_mapping, MatchConv.run, hf, Except.bind]

/-- C1 witness: round trip of variant B between Original and Derived,
both declaring variants A and B. -/
theorem c1_enum_mapping_roundtrip_witness :
    ("B" ∈ ["A", "B"] ∧ "B" ∈ demoDerived.variants) ∧
    ((enum_original_mapping "Original" demoDerived).fwd.run "B").bind
      (enum_original_mapping "Original" demoDerived).rev.run = Except.ok "B" :=
  ⟨⟨by decide, by decide⟩,
   c1_enum_mapping_roundtrip "Original" demoDerived ["A", "B"] "B"
     (by decide) (by decide)⟩

/-- C2: the forward conversion generated by enum_original_mapping is a
match over the annotated enum's variant names with a final catch-all
branch, and converting an external value whose variant name is absent
from the annotated enum fails at conversion time with a message naming
the unrecognized variant. -/
theorem c2_forward_conversion_catchall (orig : String) (item : ItemEnum)
    (v : String) (habsent : v ∉ item.variants) :
    (enum_original_mapping orig item).fwd.arms
        = item.variants.map (fun n => (n, n)) ∧
    (enum_original_mapping orig item).fwd.catchAll = true ∧
    (enum_original_mapping orig item).fwd.run v
        = Except.error ("Unrecognized variant: " ++ v) := by
  refine ⟨rfl, rfl, ?_⟩
  have hf := lookupVal_diag_of_not_mem habsent
  simp [enum_original_mapping, MatchConv.run, hf]

/-- C2 witness: Original declares A, B, C while Derived declares only
A and B; converting the external variant C fails naming C. -/
theorem c2_forward_conversion_catchall_witness :
    "C" ∉ demoDerived.variants ∧
    (enum_original_mapping "Original" demoDerived).fwd.run "C"
      = Except.error "Unrecognized variant: C" :=
  ⟨by decide,
   (c2_forward_conversion_catchall "Original" demoDerived "C" (by decide)).2.2⟩

/-- C3: the reverse conversion generated by enum_original_mapping is
an exhaustive match over all of the annotated enum's variants with no
catch-all branch, and it succeeds on every value of the annotated
enum, never reaching a runtime failure branch. -/
theorem c3_reverse_conversion_exhaustive (orig : String) (item : ItemEnum)
    (v : String) (hmem : v ∈ item.variants) :
    (enum_original_mapping orig item).rev.catchAll = false ∧
    (enum_original_mapping orig item).rev.arms
        = item.variants.map (fun n => (n, n)) ∧
    (enum_original_mapping orig item).rev.run v = Except.ok v := by
  refine ⟨rfl, rfl, ?_⟩
  have hf := lookupVal_diag_of_mem hmem
  simp [enum_original_mapping, MatchConv.run, hf]

/-- C3 witness: the reverse conversion maps the Derived variant A to
the Original variant A, with no catch-all present. -/
theorem c3_reverse_conversion_exhaustive_witness :
    "A" ∈ demoDerived.variants ∧
    (enum_original_mapping "Original" demoDerived).rev.catchAll = false ∧
    (enum_original_mapping "Original" demoDerived).rev.run "A" = Except.ok "A" :=
  ⟨by decide,
   (c3_reverse_conversion_exhaustive "Original" demoDerived "A" (by decide)).1,
   (c3_reverse_conversion_exhaustive "Original" demoDerived "A" (by decide)).2.2⟩

/-- C4: for every annotated block and every generation rule, the
synthesized items are appended after the block's pre-existing items,
so the relative order of the pre-existing items is preserved exactly;
the enum rule likewise appends its generated impls after the original
item's tokens. -/
theorem c4_generated_items_appended (args : TokenStream) (ast : ItemImpl)
    (orig : String) (item : ItemEnum) :
    (pyhash args ast).items = ast.items ++ [ImplItem.verbatim pyhashMethod] ∧
    (richcmp_full args ast).items
        = ast.items ++ [ImplItem.verbatim richcmpFullMethod] ∧
    (richcmp_eq_only args ast).items
        = ast.items ++ [ImplItem.verbatim richcmpEqOnlyMethod] ∧
    (richcmp_signer args ast).items
        = ast.items ++ [ImplItem.verbatim richcmpSignerMethod] ∧
    (common_methods args ast).items = ast.items ++ commonMethodItems ∧
    (rpc_id_getter args ast).items = ast.items ++ [ImplItem.verbatim idMethod] ∧
    (enum_original_mapping orig item).stream
        = item.tokens ++ fromImplTokens orig item.ident item.variants :=
  ⟨rfl, rfl, rfl, rfl, rfl, rfl, rfl⟩

/-- C5: the synthesized richcmp accessors return exactly what the
richcmp delegate returns for the given operator and operand, and for
the two fallible variants a delegate failure is propagated unchanged. -/
theorem c5_richcmp_delegation (argsTok : TokenStream) (ast : ItemImpl)
    (env : Env) (f : Val → List Val → Except String Val) (vo : Val)
    (op : CompareOp)
    (hf : lookupVal "richcmp" env.methods = some f)
    (ho : lookupVal "other" env.args = some vo)
    (hop : lookupVal "op" env.args = some (Val.op op)) :
    ((richcmp_full argsTok ast).items
        = ast.items ++ [ImplItem.verbatim richcmpFullMethod]
      ∧ richcmpFullMethod.body.eval env = f env.selfVal [vo, Val.op op]) ∧
    ((richcmp_eq_only argsTok ast).items
        = ast.items ++ [ImplItem.verbatim richcmpEqOnlyMethod]
      ∧ richcmpEqOnlyMethod.body.eval env = f env.selfVal [vo, Val.op op]) ∧
    ((richcmp_signer argsTok ast).items
        = ast.items ++ [ImplItem.verbatim richcmpSignerMethod]
      ∧ richcmpSignerMethod.body.eval env = f env.selfVal [vo, Val.op op]) ∧
    (∀ e, f env.selfVal [vo, Val.op op] = Except.error e →
      richcmpEqOnlyMethod.body.eval env = Except.error e ∧
      richcmpSignerMethod.body.eval env = Except.error e) := by
  have heval : Body.eval env (Body.delegateSelf "richcmp" ["other", "op"])
      = f env.selfVal [vo, Val.op op] := by
    simp [Body.eval, resolveArgs, hf, ho, hop]
  exact ⟨⟨rfl, heval⟩, ⟨rfl, heval⟩, ⟨rfl, heval⟩,
    fun e he => ⟨heval.trans he, heval.trans he⟩⟩

/-- A concrete richcmp delegate for the witness environment. -/
def demoRichF : Val → List Val → Except String Val :=
  fun _ _ => Except.ok (Val.bool true)

/-- A concrete environment whose annotated type has a richcmp method. -/
def demoRichEnv : Env :=
  { selfVal := Val.u64 0
    args := [("other", Val.u64 1), ("op", Val.op CompareOp.eq)]
    methods := [("richcmp", demoRichF)]
    statics := []
    fields := fun _ => none }

/-- C5 witness: the full-comparison accessor evaluated in a concrete
environment returns exactly the delegate's result. -/
theorem c5_richcmp_delegation_witness :
    (lookupVal "richcmp" demoRichEnv.methods = some demoRichF ∧
     lookupVal "other" demoRichEnv.args = some (Val.u64 1) ∧
     lookupVal "op" demoRichEnv.args = some (Val.op CompareOp.eq)) ∧
    richcmpFullMethod.body.eval demoRichEnv
      = demoRichF demoRichEnv.selfVal [Val.u64 1, Val.op CompareOp.eq] :=
  ⟨⟨rfl, rfl, rfl⟩,
   ((c5_richcmp_delegation [] ⟨[], [], []⟩ demoRichEnv demoRichF (Val.u64 1)
      CompareOp.eq rfl rfl rfl).1).2⟩

/-- C6: the synthesized hash accessor returns exactly the unsigned
64-bit value the pyhash delegate returns, with no transformation. -/
theorem c6_hash_delegation (argsTok : TokenStream) (ast : ItemImpl)
    (env : Env) (f : Val → List Val → Except String Val) (n : Nat)
    (hf : lookupVal "pyhash" env.methods = some f)
    (hn : f env.selfVal [] = Except.ok (Val.u64 n))
    (_hrange : n < 2 ^ 64) :
    (pyhash argsTok ast).items = ast.items ++ [ImplItem.verbatim pyhashMethod] ∧
    pyhashMethod.body.eval env = Except.ok (Val.u64 n) := by
  have heval : Body.eval env (Body.delegateSelf "pyhash" [])
      = f env.selfVal [] := by
    simp [Body.eval, resolveArgs, hf]
  exact ⟨rfl, heval.trans hn⟩

/-- A concrete pyhash delegate for the witness environment. -/
def demoHashF : Val → List Val → Except String Val :=
  fun _ _ => Except.ok (Val.u64 7)

/-- A concrete environment whose annotated type has a pyhash method. -/
def demoHashEnv : Env :=
  { selfVal := Val.u64 0
    args := []
    methods := [("pyhash", demoHashF)]
    statics := []
    fields := fun _ => none }

/-- C6 witness: the hash accessor evaluated in a concrete environment
returns the delegate's value 7 unchanged. -/
theorem c6_hash_delegation_witness :
    (lookupVal "pyhash" demoHashEnv.methods = some demoHashF ∧
     demoHashF demoHashEnv.selfVal [] = Except.ok (Val.u64 7) ∧ 7 < 2 ^ 64) ∧
    pyhashMethod.body.eval demoHashEnv = Except.ok (Val.u64 7) :=
  ⟨⟨rfl, rfl, by decide⟩,
   (c6_hash_delegation [] ⟨[], [], []⟩ demoHashEnv demoHashF 7 rfl rfl
     (by decide)).2⟩

/-- C7: each accessor synthesized by common_methods delegates to
exactly one correspondingly-named delegate method and returns its
result with no transformation. -/
theorem c7_common_methods_delegation (argsTok : TokenStream) (ast : ItemImpl)
    (env : Env)
    (fb fs fr fred ftj : Val → List Val → Except String Val)
    (ffj : List Val → Except String Val) (vpy vraw : Val)
    (hb : lookupVal "pybytes" env.methods = some fb)
    (hs : lookupVal "pystr" env.methods = some fs)
    (hr : lookupVal "pyrepr" env.methods = some fr)
    (hred : lookupVal "pyreduce" env.methods = some fred)
    (htj : lookupVal "py_to_json" env.methods = some ftj)
    (hfj : lookupVal "py_from_json" env.statics = some ffj)
    (hpy : lookupVal "py" env.args = some vpy)
    (hraw : lookupVal "raw" env.args = some vraw) :
    (common_methods argsTok ast).items = ast.items ++ commonMethodItems ∧
    bytesMethod.body.eval env = fb env.selfVal [vpy] ∧
    strMethod.body.eval env = fs env.selfVal [] ∧
    reprMethod.body.eval env = fr env.selfVal [] ∧
    reduceMethod.body.eval env = fred env.selfVal [] ∧
    toJsonMethod.body.eval env = ftj env.selfVal [] ∧
    fromJsonMethod.body.eval env = ffj [vraw] := by
  refine ⟨rfl, ?_, ?_, ?_, ?_, ?_, ?_⟩ <;>
    simp [bytesMethod, strMethod, reprMethod, reduceMethod, toJsonMethod,
      fromJsonMethod, Body.eval, resolveArgs, hb, hs, hr, hred, htj, hfj,
      hpy, hraw]

/-- Concrete delegates for the common_methods witness environment. -/
def demoBytesF : Val → List Val → Except String Val :=
  fun _ _ => Except.ok (Val.str "bytes")

/-- Concrete pystr delegate for the witness environment. -/
def demoStrF : Val → List Val → Except String Val :=
  fun _ _ => Except.ok (Val.str "str")

/-- Concrete pyrepr delegate for the witness environment. -/
def demoReprF : Val → List Val → Except String Val :=
  fun _ _ => Except.ok (Val.str "repr")

/-- Concrete pyreduce delegate for the witness environment. -/
def demoReduceF : Val → List Val → Except String Val :=
  fun _ _ => Except.ok (Val.pair (Val.str "ctor") (Val.str "args"))

/-- Concrete py_to_json delegate for the witness environment. -/
def demoToJsonF : Val → List Val → Except String Val :=
  fun _ _ => Except.ok (Val.str "json")

/-- Concrete py_from_json associated function for the witness. -/
def demoFromJsonF : List Val → Except String Val :=
  fun _ => Except.error "invalid json"

/-- A concrete environment providing all six common-methods delegates. -/
def demoCommonEnv : Env :=
  { selfVal := Val.u64 0
    args := [("py", Val.str "py"), ("raw", Val.str "raw")]
    methods := [("pybytes", demoBytesF), ("pystr", demoStrF),
                ("pyrepr", demoReprF), ("pyreduce", demoReduceF),
                ("py_to_json", demoToJsonF)]
    statics := [("py_from_json", demoFromJsonF)]
    fields := fun _ => none }

/-- C7 witness: the six synthesized accessors evaluated in a concrete
environment each return their delegate's result, the fallible
from_json propagating the delegate's error unchanged. -/
theorem c7_common_methods_delegation_witness :
    (lookupVal "pybytes" demoCommonEnv.methods = some demoBytesF ∧
     lookupVal "pystr" demoCommonEnv.methods = some demoStrF ∧
     lookupVal "pyrepr" demoCommonEnv.methods = some demoReprF ∧
     lookupVal "pyreduce" demoCommonEnv.methods = some demoReduceF ∧
     lookupVal "py_to_json" demoCommonEnv.methods = some demoToJsonF ∧
     lookupVal "py_from_json" demoCommonEnv.statics = some demoFromJsonF ∧
     lookupVal "py" demoCommonEnv.args = some (Val.str "py") ∧
     lookupVal "raw" demoCommonEnv.args = some (Val.str "raw")) ∧
    bytesMethod.body.eval demoCommonEnv
      = demoBytesF demoCommonEnv.selfVal [Val.str "py"] ∧
    fromJsonMethod.body.eval demoCommonEnv = demoFromJsonF [Val.str "raw"] :=
  ⟨⟨rfl, rfl, rfl, rfl, rfl, rfl, rfl, rfl⟩,
   (c7_common_methods_delegation [] ⟨[], [], []⟩ demoCommonEnv demoBytesF
      demoStrF demoReprF demoReduceF demoToJsonF demoFromJsonF
      (Val.str "py") (Val.str "raw") rfl rfl rfl rfl rfl rfl rfl rfl).2.1,
   (c7_common_methods_delegation [] ⟨[], [], []⟩ demoCommonEnv demoBytesF
      demoStrF demoReprF demoReduceF demoToJsonF demoFromJsonF
      (Val.str "py") (Val.str "raw") rfl rfl rfl rfl rfl rfl rfl rfl).2.2.2.2.2.2⟩

/-- The empty impl block used to sample what each rule appends. -/
def emptyImplBlock : ItemImpl := { attrs := [], header := [], items := [] }

/-- The items a rule appends to an annotated block, sampled on the
empty block. -/
def appendedBy (r : TokenStream → ItemImpl → ItemImpl) : List ImplItem :=
  (r [] emptyImplBlock).items

/-- The six implementation-block attribute macros the crate defines,
keyed by their source names. -/
def implRules : List (String × (TokenStream → ItemImpl → ItemImpl)) :=
  [("pyhash", pyhash), ("richcmp_full", richcmp_full),
   ("richcmp_eq_only", richcmp_eq_only), ("richcmp_signer", richcmp_signer),
   ("common_methods", common_methods), ("rpc_id_getter", rpc_id_getter)]

/-- The four representation accessors without the JSON pair, which the
claimed variant B of the bundle would synthesize. -/
def fourAccessorBundle : List ImplItem :=
  [ImplItem.verbatim bytesMethod, ImplItem.verbatim strMethod,
   ImplItem.verbatim reprMethod, ImplItem.verbatim reduceMethod]

/-- C8 counterexample: no rule defined by the crate synthesizes only
the four representation accessors while omitting the JSON pair, so the
claimed variant B of the common representation bundle does not exist. -/
theorem c8_no_four_accessor_variant :
    ¬ ∃ p ∈ implRules, appendedBy p.2 = fourAccessorBundle := by decide

/-- C8 amended: the common representation bundle exists in a single
variant, which synthesizes the four representation accessors plus the
JSON pair, and it is the only rule synthesizing that bundle. -/
theorem c8_single_bundle_variant :
    appendedBy common_methods
      = fourAccessorBundle
        ++ [ImplItem.verbatim toJsonMethod, ImplItem.verbatim fromJsonMethod] ∧
    implRules.countP
      (fun p => decide (appendedBy p.2
        = fourAccessorBundle
          ++ [ImplItem.verbatim toJsonMethod, ImplItem.verbatim fromJsonMethod]))
      = 1 := by
  exact ⟨rfl, by decide⟩

/-- C9: every transformation pass re-emits all untouched syntax of the
input block, at the token level the macros operate on, unchanged and
in place: attribute tokens, header tokens and the pre-existing items
appear verbatim in the output, with the generated tokens purely added. -/
theorem c9_token_preservation (args : TokenStream) (ast : ItemImpl)
    (orig : String) (item : ItemEnum) :
    (pyhash args ast).toTokenStream
      = ast.attrs ++ ast.header ++ ["\x7b"]
        ++ (ast.items.map ImplItem.toTokens).flatten
        ++ pyhashMethod.tokens ++ ["\x7d"] ∧
    (richcmp_full args ast).toTokenStream
      = ast.attrs ++ ast.header ++ ["\x7b"]
        ++ (ast.items.map ImplItem.toTokens).flatten
        ++ richcmpFullMethod.tokens ++ ["\x7d"] ∧
    (richcmp_eq_only args ast).toTokenStream
      = ast.attrs ++ ast.header ++ ["\x7b"]
        ++ (ast.items.map ImplItem.toTokens).flatten
        ++ richcmpEqOnlyMethod.tokens ++ ["\x7d"] ∧
    (richcmp_signer args ast).toTokenStream
      = ast.attrs ++ ast.header ++ ["\x7b"]
        ++ (ast.items.map ImplItem.toTokens).flatten
        ++ richcmpSignerMethod.tokens ++ ["\x7d"] ∧
    (common_methods args ast).toTokenStream
      = ast.attrs ++ ast.header ++ ["\x7b"]
        ++ (ast.items.map ImplItem.toTokens).flatten
        ++ bytesMethod.tokens ++ strMethod.tokens ++ reprMethod.tokens
        ++ reduceMethod.tokens ++ toJsonMethod.tokens ++ fromJsonMethod.tokens
        ++ ["\x7d"] ∧
    (rpc_id_getter args ast).toTokenStream
      = ast.attrs ++ ast.header ++ ["\x7b"]
        ++ (ast.items.map ImplItem.toTokens).flatten
        ++ idMethod.tokens ++ ["\x7d"] ∧
    (enum_original_mapping orig item).stream
      = item.tokens ++ fromImplTokens orig item.ident item.variants := by
  refine ⟨?_, ?_, ?_, ?_, ?_, ?_, rfl⟩ <;>
    simp [pyhash, richcmp_full, richcmp_eq_only, richcmp_signer,
      common_methods, rpc_id_getter, ItemImpl.toTokenStream, commonMethodItems,
      ImplItem.toTokens, List.append_assoc]

/-- C10: for each of the six implementation-block rules, the
annotation's argument tokens are ignored entirely: any two argument
token streams applied to the same block give identical output. -/
theorem c10_attribute_args_ignored (a1 a2 : TokenStream) (ast : ItemImpl) :
    pyhash a1 ast = pyhash a2 ast ∧
    richcmp_full a1 ast = richcmp_full a2 ast ∧
    richcmp_eq_only a1 ast = richcmp_eq_only a2 ast ∧
    richcmp_signer a1 ast = richcmp_signer a2 ast ∧
    common_methods a1 ast = common_methods a2 ast ∧
    rpc_id_getter a1 ast = rpc_id_getter a2 ast :=
  ⟨rfl, rfl, rfl, rfl, rfl, rfl⟩

end Solders
